import Mathlib

/-!
Verification of the static file server in frontend/public/server.py.

The script subclasses the standard file-serving request handler, overriding
end_headers (to append four CORS/cache headers to every response) and
do_OPTIONS (to answer 200 with an empty body), changes the working directory
to the directory containing the script itself, and serves plain TCP on port
3012 until interrupted.

The underlying file-serving primitive (the base class handling GET and HEAD)
is not part of the repository; its behaviour is modelled here from the
specification of the Static File Responder.  The two overrides and the
__main__ block are translated from the source.
-/

/-- HTTP request method. -/
inductive Method where
  | GET
  | HEAD
  | OPTIONS
  | POST
  | other (name : String)
  deriving DecidableEq, Repr

/-- An HTTP request: method, raw path and request headers. -/
structure Request where
  method : Method
  path : String
  headers : List (String × String)
  deriving DecidableEq, Repr

/-- An HTTP response: status code, header list and body bytes. -/
structure Response where
  status : Nat
  headers : List (String × String)
  body : List Nat
  deriving DecidableEq, Repr

/-- A filesystem node: a regular file with its byte contents, or a directory. -/
inductive Node where
  | file (contents : List Nat)
  | dir
  deriving DecidableEq, Repr

/-- A filesystem: a finite association of absolute paths (segment lists from
the filesystem root) to nodes. -/
abbrev FileSystem := List (List String × Node)

/-- Look a path up in the filesystem. -/
def fsFind (fs : FileSystem) (p : List String) : Option Node :=
  match fs with
  | [] => none
  | (q, n) :: rest => if q = p then some n else fsFind rest p

/-- UTF-8 bytes of a string, as natural numbers. -/
def strBytes (s : String) : List Nat :=
  s.toUTF8.toList.map (fun b => b.toNat)

/-- Split the character list of a raw request path at slashes, dropping empty
components; the second argument accumulates the current component reversed. -/
def splitSegs : List Char → List Char → List String
  | [], cur => if cur = [] then [] else [String.mk cur.reverse]
  | c :: rest, cur =>
      if c = '/' then
        if cur = [] then splitSegs rest []
        else String.mk cur.reverse :: splitSegs rest []
      else splitSegs rest (c :: cur)

/-- The slash-separated segments of a raw request path. -/
def pathSegments (p : String) : List String :=
  splitSegs p.toList []

/-- Modelled from the spec: normalisation of request-path segments relative
to the served root, for the file-serving primitive that is not part of the
repository.  A "." segment is ignored; a ".." segment steps up one
directory, and an attempt to step above the served root is an escape
attempt, rejected with `none`.  The accumulator holds the segments resolved
so far, innermost first. -/
def normalizeSegs (segs : List String) (acc : List String) : Option (List String) :=
  match segs with
  | [] => some acc.reverse
  | s :: rest =>
      if s = "." then normalizeSegs rest acc
      else if s = ".." then
        match acc with
        | [] => none
        | _ :: acc2 => normalizeSegs rest acc2
      else normalizeSegs rest (s :: acc)

/-- Modelled from the spec: resolve a raw request path against the served
root, rejecting attempts to escape the root via relative traversal. -/
def resolve (root : List String) (path : String) : Option (List String) :=
  (normalizeSegs (pathSegments path) []).map (fun rel => root ++ rel)

/-- Modelled from the spec: the "inferred content type" of the file-serving
primitive, inferred from the filename extension. -/
def contentTypeFor (name : String) : String :=
  if List.isSuffixOf (String.toList ".html") (String.toList name) then "text/html"
  else if List.isSuffixOf (String.toList ".js") (String.toList name) then "text/javascript"
  else if List.isSuffixOf (String.toList ".css") (String.toList name) then "text/css"
  else "application/octet-stream"

/-- The last segment of a resolved path, used for content-type inference. -/
def lastSeg (p : List String) : String :=
  (p.getLast?).getD ""

/-- Modelled from the spec: the standard not-found body of the file-serving
primitive. -/
def notFoundBody : List Nat :=
  strBytes "404 Not Found"

/-- Modelled from the spec: the body of the 501 "not implemented" answer of
the file-serving primitive. -/
def notImplementedBody : List Nat :=
  strBytes "501 Unsupported method"

/-- Modelled from the spec: the generated HTML listing returned for a
directory by the file-serving primitive. -/
def listingBody (p : List String) : List Nat :=
  strBytes ("<html>Directory listing for /" ++ String.intercalate "/" p ++ "</html>")

/-- The four fixed headers injected by CORSRequestHandler.end_headers,
with their exact values. -/
def corsHeaders : List (String × String) :=
  [("Access-Control-Allow-Origin", "*"),
   ("Access-Control-Allow-Methods", "GET, POST, OPTIONS"),
   ("Access-Control-Allow-Headers", "*"),
   ("Cache-Control", "no-cache, no-store, must-revalidate")]

/-- CORSRequestHandler.end_headers: the four fixed headers are appended to
the buffered headers of the response being finalised, for every response. -/
def end_headers (hs : List (String × String)) : List (String × String) :=
  hs ++ corsHeaders

/-- The response before the end_headers override runs.  do_OPTIONS is
translated from the source (send_response(200) then end_headers, no body);
GET, HEAD and the not-implemented fallback for other methods are modelled
from the spec's Static File Responder, the file-serving base class not being
part of the repository. -/
def handleCore (fs : FileSystem) (root : List String) (req : Request) : Response :=
  match req.method with
  | Method.OPTIONS =>
      { status := 200, headers := [], body := [] }
  | Method.GET =>
      match resolve root req.path with
      | none =>
          { status := 404, headers := [("Content-Type", "text/html")],
            body := notFoundBody }
      | some p =>
          match fsFind fs p with
          | some (Node.file c) =>
              { status := 200,
                headers := [("Content-Type", contentTypeFor (lastSeg p))],
                body := c }
          | some Node.dir =>
              { status := 200, headers := [("Content-Type", "text/html")],
                body := listingBody p }
          | none =>
              { status := 404, headers := [("Content-Type", "text/html")],
                body := notFoundBody }
  | Method.HEAD =>
      match resolve root req.path with
      | none =>
          { status := 404, headers := [("Content-Type", "text/html")], body := [] }
      | some p =>
          match fsFind fs p with
          | some (Node.file _) =>
              { status := 200,
                headers := [("Content-Type", contentTypeFor (lastSeg p))],
                body := [] }
          | some Node.dir =>
              { status := 200, headers := [("Content-Type", "text/html")], body := [] }
          | none =>
              { status := 404, headers := [("Content-Type", "text/html")], body := [] }
  | Method.POST =>
      { status := 501, headers := [("Content-Type", "text/html")],
        body := notImplementedBody }
  | Method.other _ =>
      { status := 501, headers := [("Content-Type", "text/html")],
        body := notImplementedBody }

/-- A request handled end to end: the core response with its headers passed
through the end_headers override. -/
def handle (fs : FileSystem) (root : List String) (req : Request) : Response :=
  let r := handleCore fs root req
  { status := r.status, headers := end_headers r.headers, body := r.body }

/-- The single listening loop: each request is handled independently, in
arrival order. -/
def serveAll (fs : FileSystem) (root : List String) (reqs : List Request) :
    List Response :=
  reqs.map (handle fs root)

/-- os.path.dirname of an absolute path given as segments. -/
def dirname (p : List String) : List String :=
  p.dropLast

/-- The served root established at startup, line 21 of server.py:
os.chdir(os.path.dirname(os.path.abspath(.file.))), i.e. the directory
containing the script itself. -/
def servedRoot (scriptFile : List String) : List String :=
  dirname scriptFile

/-- Process-wide state visible to the request loop: the working directory,
which is the served root, and the filesystem. -/
structure ServerState where
  root : List String
  fs : FileSystem
  deriving Repr

/-- Handling one request reads the state but never writes it: nothing in
CORSRequestHandler mutates the working directory. -/
def handleStep (s : ServerState) (req : Request) : Response × ServerState :=
  (handle s.fs s.root req, s)

/-- serve_forever's request loop, threading the process state. -/
def runLoop (s : ServerState) (reqs : List Request) : List Response × ServerState :=
  match reqs with
  | [] => ([], s)
  | r :: rest =>
      let out := handleStep s r
      let tail := runLoop out.2 rest
      (out.1 :: tail.1, tail.2)

/-- PORT = 3012, line 20 of server.py. -/
def PORT : Nat := 3012

/-- The startup banner printed by the __main__ block. -/
def banner : List String :=
  ["=== ZeroDrop Frontend Server ===",
   "Server started at http://localhost:" ++ toString PORT,
   "Open your browser to: http://localhost:" ++ toString PORT,
   "Press Ctrl+C to stop the server",
   ""]

/-- A listening-socket address; host "" binds all interfaces. -/
structure SocketSpec where
  host : String
  port : Nat
  deriving DecidableEq, Repr

/-- The listening socket requested in __main__: TCPServer(("", PORT), ...). -/
def serverSocket : SocketSpec :=
  { host := "", port := PORT }

/-- The sockets __main__ listens on: exactly the one TCPServer. -/
def boundSockets : List SocketSpec :=
  [serverSocket]

/-- The observable result of one run of the process. -/
structure ProcessResult where
  bound : List SocketSpec
  printed : List String
  responses : List Response
  socketClosed : Bool
  exitCode : Nat
  deriving DecidableEq, Repr

/-- The __main__ block, lines 19-32 of server.py: change directory to the
script's own directory, bind the socket, print the banner, serve the
requests that arrive until the interrupt, catch the KeyboardInterrupt and
print the shutdown message; leaving the with-block closes the socket and the
script ends normally, so the process exit status is 0.  `reqs` are the
requests handled before the interrupt arrives. -/
def runMain (scriptFile : List String) (fs : FileSystem) (reqs : List Request) :
    ProcessResult :=
  let s0 : ServerState := { root := servedRoot scriptFile, fs := fs }
  let out := runLoop s0 reqs
  { bound := boundSockets
  , printed := banner ++ ["\nServer stopped."]
  , responses := out.1
  , socketClosed := true
  , exitCode := 0 }

/-- Every response's header list ends with the four injected headers. -/
theorem handle_headers_split (fs : FileSystem) (root : List String) (req : Request) :
    ∃ hs, (handle fs root req).headers = hs ++ corsHeaders := by
  exact ⟨(handleCore fs root req).headers, rfl⟩

/-- Claim C1: for every request handled by the server, whatever the method,
the path and the outcome, the response's header set includes the four fixed
headers 'Access-Control-Allow-Origin: *',
'Access-Control-Allow-Methods: GET, POST, OPTIONS',
'Access-Control-Allow-Headers: *' and
'Cache-Control: no-cache, no-store, must-revalidate'. -/
theorem spec_c1_cors_headers (fs : FileSystem) (root : List String) (req : Request) :
    ("Access-Control-Allow-Origin", "*") ∈ (handle fs root req).headers ∧
    ("Access-Control-Allow-Methods", "GET, POST, OPTIONS") ∈ (handle fs root req).headers ∧
    ("Access-Control-Allow-Headers", "*") ∈ (handle fs root req).headers ∧
    ("Cache-Control", "no-cache, no-store, must-revalidate") ∈ (handle fs root req).headers := by
  obtain ⟨hs, h⟩ := handle_headers_split fs root req
  rw [h]
  refine ⟨?_, ?_, ?_, ?_⟩ <;> · exact List.mem_append_right hs (by simp [corsHeaders])

/-- Claim C4: an OPTIONS request, whatever its path and headers, is answered
with status 200 and an empty body. -/
theorem spec_c4_options_ok (fs : FileSystem) (root : List String) (p : String)
    (hs : List (String × String)) :
    (handle fs root { method := Method.OPTIONS, path := p, headers := hs }).status = 200 ∧
    (handle fs root { method := Method.OPTIONS, path := p, headers := hs }).body = [] :=
  ⟨rfl, rfl⟩

/-- Claim C10: the OPTIONS handler reads neither the request path, nor the
request headers, nor the filesystem: any two OPTIONS requests, against any
two filesystems and roots, get identical responses (same 200 status, same
injected header set, same body). -/
theorem spec_c10_options_constant (fs fs2 : FileSystem) (root root2 : List String)
    (p p2 : String) (hs hs2 : List (String × String)) :
    handle fs root { method := Method.OPTIONS, path := p, headers := hs } =
      handle fs2 root2 { method := Method.OPTIONS, path := p2, headers := hs2 } :=
  rfl

/-- Claim C9: at startup the server binds one plain TCP listening socket, on
port 3012, host "" (all interfaces), and that is the only socket it listens
on, for any run of the process. -/
theorem spec_c9_single_port (scriptFile : List String) (fs : FileSystem)
    (reqs : List Request) :
    (runMain scriptFile fs reqs).bound = [{ host := "", port := 3012 }] :=
  rfl

/-- Claim C7: a run interrupted while serving prints the shutdown message,
has its listening socket closed by the with-block, and exits with status 0:
the interrupt is not treated as an error. -/
theorem spec_c7_interrupt_clean (scriptFile : List String) (fs : FileSystem)
    (reqs : List Request) :
    (runMain scriptFile fs reqs).exitCode = 0 ∧
    (runMain scriptFile fs reqs).socketClosed = true ∧
    "\nServer stopped." ∈ (runMain scriptFile fs reqs).printed := by
  refine ⟨rfl, rfl, ?_⟩
  show "\nServer stopped." ∈ banner ++ ["\nServer stopped."]
  exact List.mem_append_right banner (by simp)

/-- Claim C3: a GET request whose path resolves to an existing regular file
under the served root is answered with status 200 and a body byte-identical
to the file's contents. -/
theorem spec_c3_file_served (fs : FileSystem) (root p : List String) (c : List Nat)
    (req : Request)
    (hm : req.method = Method.GET)
    (hr : resolve root req.path = some p)
    (hf : fsFind fs p = some (Node.file c)) :
    (handle fs root req).status = 200 ∧ (handle fs root req).body = c := by
  simp [handle, handleCore, hm, hr, hf]

/-- Witness for C3: GET /index.html against a root holding index.html with
bytes [104, 105] returns 200 and exactly those bytes. -/
theorem spec_c3_file_served_witness :
    (handle [(["srv", "index.html"], Node.file [104, 105])] ["srv"]
        { method := Method.GET, path := "/index.html", headers := [] }).status = 200 ∧
    (handle [(["srv", "index.html"], Node.file [104, 105])] ["srv"]
        { method := Method.GET, path := "/index.html", headers := [] }).body = [104, 105] :=
  spec_c3_file_served _ _ ["srv", "index.html"] [104, 105] _ rfl rfl rfl

/-- Claim C2 as frozen is false on a path that contains a relative-traversal
segment without escaping the served root: GET /a/../b, with file b present
under the root, resolves inside the root and is answered 200, not 404 or
403. -/
theorem spec_c2_counterexample :
    ".." ∈ pathSegments "/a/../b" ∧
    (handle [(["srv", "b"], Node.file [104])] ["srv"]
        { method := Method.GET, path := "/a/../b", headers := [] }).status = 200 ∧
    ¬ ((handle [(["srv", "b"], Node.file [104])] ["srv"]
          { method := Method.GET, path := "/a/../b", headers := [] }).status = 404 ∨
       (handle [(["srv", "b"], Node.file [104])] ["srv"]
          { method := Method.GET, path := "/a/../b", headers := [] }).status = 403) := by
  refine ⟨by decide, rfl, ?_⟩
  decide

/-- Claim C2 amended: a GET request whose path traversal attempts to escape
the served root is answered 404 with the fixed not-found body, and the
response does not depend on the filesystem at all, so it can contain the
contents of no file outside (nor inside) the served root. -/
theorem spec_c2_traversal_escape (fs fs2 : FileSystem) (root : List String)
    (req : Request)
    (hm : req.method = Method.GET)
    (he : normalizeSegs (pathSegments req.path) [] = none) :
    (handle fs root req).status = 404 ∧
    (handle fs root req).body = notFoundBody ∧
    handle fs root req = handle fs2 root req := by
  have hr : resolve root req.path = none := by simp [resolve, he]
  refine ⟨?_, ?_, ?_⟩ <;> simp [handle, handleCore, hm, hr]

/-- Witness for the amended C2: GET ../../etc/passwd, even with /etc/passwd
present on the filesystem outside the root, is answered 404 with the
not-found body, identically to a run against an empty filesystem. -/
theorem spec_c2_traversal_escape_witness :
    (handle [(["etc", "passwd"], Node.file [42])] ["srv"]
        { method := Method.GET, path := "../../etc/passwd", headers := [] }).status = 404 ∧
    (handle [(["etc", "passwd"], Node.file [42])] ["srv"]
        { method := Method.GET, path := "../../etc/passwd", headers := [] }).body =
      notFoundBody ∧
    handle [(["etc", "passwd"], Node.file [42])] ["srv"]
        { method := Method.GET, path := "../../etc/passwd", headers := [] } =
      handle [] ["srv"]
        { method := Method.GET, path := "../../etc/passwd", headers := [] } :=
  spec_c2_traversal_escape [(["etc", "passwd"], Node.file [42])] [] ["srv"] _ rfl rfl

/-- Claim C5: a GET request for a path that resolves under the root but does
not exist on the filesystem is answered 404, and the failure leaves the
responses of every subsequent request exactly as they would have been. -/
theorem spec_c5_not_found (fs : FileSystem) (root p : List String) (req : Request)
    (pre post : List Request)
    (hm : req.method = Method.GET)
    (hr : resolve root req.path = some p)
    (hf : fsFind fs p = none) :
    (handle fs root req).status = 404 ∧
    (serveAll fs root (pre ++ req :: post)).drop (pre.length + 1) =
      serveAll fs root post := by
  constructor
  · simp [handle, handleCore, hm, hr, hf]
  · have h : serveAll fs root (pre ++ req :: post) =
        (serveAll fs root pre ++ [handle fs root req]) ++ serveAll fs root post := by
      simp [serveAll]
    rw [h, List.drop_left' (by simp [serveAll])]

/-- Witness for C5: GET /nope against a root holding only index.html is
answered 404, and the request that follows it is served as if the failure
had not happened. -/
theorem spec_c5_not_found_witness :
    (handle [(["srv", "index.html"], Node.file [1])] ["srv"]
        { method := Method.GET, path := "/nope", headers := [] }).status = 404 ∧
    (serveAll [(["srv", "index.html"], Node.file [1])] ["srv"]
        ([] ++ { method := Method.GET, path := "/nope", headers := [] } ::
          [{ method := Method.GET, path := "/index.html", headers := [] }])).drop
        (List.length ([] : List Request) + 1) =
      serveAll [(["srv", "index.html"], Node.file [1])] ["srv"]
        [{ method := Method.GET, path := "/index.html", headers := [] }] :=
  spec_c5_not_found [(["srv", "index.html"], Node.file [1])] ["srv"] ["srv", "nope"]
    { method := Method.GET, path := "/nope", headers := [] } [] _ rfl rfl rfl

/-- The request loop returns the handled responses in order and leaves the
process state exactly as it found it. -/
theorem runLoop_eq (s : ServerState) (reqs : List Request) :
    runLoop s reqs = (reqs.map (handle s.fs s.root), s) := by
  induction reqs with
  | nil => rfl
  | cons r rest ih => simp [runLoop, handleStep, ih]

/-- Claim C6: the served root is the directory containing the script,
computed once at startup; the request loop never mutates it — after any
sequence of requests the state's root is still the initial one, and every
response was produced against that same root. -/
theorem spec_c6_root_immutable (scriptFile : List String) (fs : FileSystem)
    (reqs : List Request) :
    (runLoop { root := servedRoot scriptFile, fs := fs } reqs).2.root =
        servedRoot scriptFile ∧
    (runLoop { root := servedRoot scriptFile, fs := fs } reqs).1 =
        reqs.map (handle fs (servedRoot scriptFile)) := by
  rw [runLoop_eq]
  exact ⟨rfl, rfl⟩

/-- Claim C8: a request whose method is none of GET, HEAD and OPTIONS —
POST included, despite the advertised Access-Control-Allow-Methods value —
is answered with a 501 or 405 status. -/
theorem spec_c8_other_methods (fs : FileSystem) (root : List String) (req : Request)
    (h1 : req.method ≠ Method.GET) (h2 : req.method ≠ Method.HEAD)
    (h3 : req.method ≠ Method.OPTIONS) :
    (handle fs root req).status = 501 ∨ (handle fs root req).status = 405 := by
  left
  rcases req with ⟨m, p, hd⟩
  cases m with
  | GET => exact absurd rfl h1
  | HEAD => exact absurd rfl h2
  | OPTIONS => exact absurd rfl h3
  | POST => rfl
  | other n => rfl

/-- Witness for C8: a POST request is answered 501. -/
theorem spec_c8_other_methods_witness :
    (handle [] ["srv"] { method := Method.POST, path := "/", headers := [] }).status = 501 ∨
    (handle [] ["srv"] { method := Method.POST, path := "/", headers := [] }).status = 405 :=
  spec_c8_other_methods [] ["srv"] _ (by decide) (by decide) (by decide)
